import Mathlib

/-!
Verification of the websocks proxy gateway against its specification.

The development shallowly embeds the claim-relevant parts of the source:

* `websocks/rule.py` — the ABP-style rule engine (`FilterRule._judge`,
  `FilterRule.judge`, module-level `judge` and `add`);
* `websocks/client.py` — the connection pool (`Pool.clear_pool`,
  `Pool.acquire`), the tunnel wrapper (`WebSocket.create_connection`,
  `WebSocket.recv`, `WebSocket.closed`), the routing engine
  (`Client.connect_remote`) and the SOCKS4/4A greeter (`Client.socks4`).

Hostnames and rule lines are modelled as `List Char`; effectful oracles
(DNS answers, dial results, WebSocket frames) are passed in explicitly;
Python exceptions become explicit error values.
-/

set_option maxRecDepth 4096

deriving instance DecidableEq for Except

/-- Hostnames and rule lines are Python strings, embedded as char lists. -/
abbrev Str := List Char

/-- Python `str.startswith`: the second list is a prefix of the first. -/
def pyStartsWith : Str → Str → Bool
  | _, [] => true
  | [], _ :: _ => false
  | c :: cs, p :: ps => c == p && pyStartsWith cs ps

/-- Python `str.endswith`, via reversal. -/
def pyEndsWith (s pat : Str) : Bool :=
  pyStartsWith s.reverse pat.reverse

/-- Whitespace characters stripped by Python `str.strip()`. -/
def isSpaceCh (c : Char) : Bool :=
  c == ' ' || c == '\t' || c == '\n' || c == '\r' || c == '\x0b' || c == '\x0c'

/-- Python `str.strip()` with no argument. -/
def pyStrip (l : Str) : Str :=
  ((l.dropWhile isSpaceCh).reverse.dropWhile isSpaceCh).reverse

/-- Python exceptions that the embedded rule code can raise.
`indexError` models `line[0]` on an empty string (reachable through the
recursive call of `FilterRule._judge` on the rule line "@@"). -/
inductive PyErr
  | indexError
deriving DecidableEq, Repr

/-- Embeds `FilterRule._judge` (rule.py lines 131-146): one rule line
against one host.  The source checks, in order: comment `!`, domain anchor
`||` (a `startswith` test on the host), leading-dot rule (an `endswith`
test), exception `@@` (recursing and inverting a concrete result), and
finally a plain `startswith` prefix rule.  `some true` is a match,
`some false` an exception match, `none` no decision. -/
def judgeLine (host : Str) : Str → Except PyErr (Option Bool)
  | [] => .error .indexError
  | '!' :: _ => .ok none
  | '|' :: '|' :: suf => .ok (if pyStartsWith host suf then some true else none)
  | '.' :: rest => .ok (if pyEndsWith host ('.' :: rest) then some true else none)
  | '@' :: '@' :: inner =>
    match judgeLine host inner with
    | .ok (some b) => .ok (some (!b))
    | .ok none => .ok none
    | .error e => .error e
  | line => .ok (if pyStartsWith host line then some true else none)

/-- Embeds `FilterRule._judge_from_file` (rule.py lines 122-129): strip each
line, skip empties, return the first concrete decision. -/
def judgeFile (host : Str) : List Str → Except PyErr (Option Bool)
  | [] => .ok none
  | l :: rest =>
    let t := pyStrip l
    if t.isEmpty then judgeFile host rest
    else
      match judgeLine host t with
      | .ok none => judgeFile host rest
      | r => r

/-- Embeds `FilterRule._judge_yourself` (rule.py lines 113-120): walk the
user-supplied files in order, first concrete decision wins. -/
def judgeYourself (host : Str) : List (List Str) → Except PyErr (Option Bool)
  | [] => .ok none
  | f :: fs =>
    match judgeFile host f with
    | .ok none => judgeYourself host fs
    | r => r

/-- The rule sources a `FilterRule` instance consults: the whitelist file,
the GFW list file, the user files (`yourselfs`), and the two built-in
compiled regexes (`black_list`, rule.py lines 40-45), abstracted as a
boolean predicate because regex matching is opaque to every claim. -/
structure RuleConfig where
  whitelist : List Str
  gfwlist : List Str
  yourselfs : List (List Str)
  black : Str → Bool

/-- Embeds `FilterRule.judge` (rule.py lines 81-99): whitelist, then GFW
list, then user files, then the built-in black-list regexes. -/
def filterJudge (cfg : RuleConfig) (host : Str) : Except PyErr (Option Bool) :=
  match judgeFile host cfg.whitelist with
  | .ok none =>
    match judgeFile host cfg.gfwlist with
    | .ok none =>
      match judgeYourself host cfg.yourselfs with
      | .ok none => .ok (if cfg.black host then some true else none)
      | r => r
    | r => r
  | r => r

/-- Modelled from the spec: the lookup order sentence of section 4.4,
"user override files, then whitelist (direct-biased), then GFW list
(proxy-biased). First concrete decision wins."  Used only to compare the
spec's claimed order with the source's actual order. -/
def specFilterJudge (cfg : RuleConfig) (host : Str) : Except PyErr (Option Bool) :=
  match judgeYourself host cfg.yourselfs with
  | .ok none =>
    match judgeFile host cfg.whitelist with
    | .ok none => judgeFile host cfg.gfwlist
    | r => r
  | r => r

/-- Dotted-quad IPv4 address as four octets. -/
structure IP4 where
  a : Nat
  b : Nat
  c : Nat
  d : Nat
deriving DecidableEq, Repr

/-- Value of one decimal octet, rejecting empty parts, non-digits, leading
zeros and values above 255, as `ipaddress.ip_address` does for strings. -/
def octetVal : Str → Option Nat
  | [] => none
  | ['0'] => some 0
  | s =>
    if s.head? = some '0' then none
    else if s.all (fun c => c.isDigit) then
      let v := s.foldl (fun acc c => acc * 10 + (c.toNat - 48)) 0
      if v ≤ 255 then some v else none
    else none

/-- Parse a host as an IPv4 literal, the `IPv4Address` half of
`ipaddress.ip_address` (the IPv6 half is `parseIPv6` below; `parseIP`
combines the two). -/
def parseIPv4 (host : Str) : Option IP4 :=
  match (host.splitOn '.').map octetVal with
  | [some a, some b, some c, some d] => some ⟨a, b, c, d⟩
  | _ => none

/-- Python `IPv4Address.is_private`: membership in the standard list of
private networks used by the `ipaddress` module. -/
def isPrivateIP (x : IP4) : Bool :=
  x.a == 0 || x.a == 10 || x.a == 127
    || (x.a == 169 && x.b == 254)
    || (x.a == 172 && decide (16 ≤ x.b) && decide (x.b ≤ 31))
    || (x.a == 192 && x.b == 0 && x.c == 0 && decide (x.d ≤ 7))
    || (x.a == 192 && x.b == 0 && x.c == 0 && (x.d == 170 || x.d == 171))
    || (x.a == 192 && x.b == 0 && x.c == 2)
    || (x.a == 192 && x.b == 168)
    || (x.a == 198 && (x.b == 18 || x.b == 19))
    || (x.a == 198 && x.b == 51 && x.c == 100)
    || (x.a == 203 && x.b == 0 && x.c == 113)
    || decide (240 ≤ x.a)

/-- Value of one hexadecimal digit, the character set accepted by
`IPv6Address._parse_hextet`. -/
def hexVal (c : Char) : Option Nat :=
  if '0' ≤ c ∧ c ≤ '9' then some (c.toNat - 48)
  else if 'a' ≤ c ∧ c ≤ 'f' then some (c.toNat - 87)
  else if 'A' ≤ c ∧ c ≤ 'F' then some (c.toNat - 55)
  else none

/-- Accumulate hexadecimal digits; `none` on any non-hex character. -/
def parseHexDigits (acc : Nat) : Str → Option Nat
  | [] => some acc
  | c :: cs =>
    match hexVal c with
    | none => none
    | some v => parseHexDigits (acc * 16 + v) cs

/-- One IPv6 hextet: one to four hex digits
(`IPv6Address._parse_hextet`; the empty string fails there too, through
`int('', 16)`). -/
def parseHextet (s : Str) : Option Nat :=
  if s.isEmpty then none
  else if s.length > 4 then none
  else parseHexDigits 0 s

/-- One part of a colon-split IPv6 address: a raw string, or a hextet value
produced by the embedded-IPv4 expansion (which CPython renders with `%x`
and reparses; round-tripping, so a value is kept directly). -/
inductive H6Part
  | strP (s : Str)
  | valP (v : Nat)
deriving DecidableEq, Repr

/-- Hextet value of a part. -/
def partVal : H6Part → Option Nat
  | .strP s => parseHextet s
  | .valP v => some v

/-- Empty parts of the colon split mark the `::` compression. -/
def partIsEmpty : H6Part → Bool
  | .strP [] => true
  | _ => false

/-- Fold hextets into the running 128-bit integer, 16 bits at a time. -/
def foldHextets (acc : Nat) : List H6Part → Option Nat
  | [] => some acc
  | p :: ps =>
    match partVal p with
    | none => none
    | some v => foldHextets (acc * 65536 + v) ps

/-- Split a string at the first occurrence of a separator; `none` when the
separator does not occur (Python `str.partition`). -/
def splitAtFirst (sep : Char) : Str → Option (Str × Str)
  | [] => none
  | c :: cs =>
    if c = sep then some ([], cs)
    else
      match splitAtFirst sep cs with
      | none => none
      | some (b, a) => some (c :: b, a)

/-- Embeds `IPv6Address._ip_int_from_string` of CPython's `ipaddress`:
split on colons (at least three parts), expand an embedded dotted-quad
last part into two hextets, allow at most nine parts, locate the single
`::` compression among the interior parts (a leading or trailing lone
colon is only allowed as half of a `::`), require at least one skipped
group when compressed and exactly eight groups otherwise, and fold the
hextets around the compression into the 128-bit value. -/
def parseIPv6Core (addr : Str) : Option Nat :=
  let rawParts := addr.splitOn ':'
  if rawParts.length < 3 then none
  else
    let expanded : Option (List H6Part) :=
      match rawParts.getLast? with
      | none => none
      | some last =>
        if last.contains '.' then
          match parseIPv4 last with
          | some q =>
            some (rawParts.dropLast.map H6Part.strP ++
              [H6Part.valP (q.a * 256 + q.b), H6Part.valP (q.c * 256 + q.d)])
          | none => none
        else some (rawParts.map H6Part.strP)
    match expanded with
    | none => none
    | some parts =>
      if parts.length > 9 then none
      else
        let inner := (parts.drop 1).dropLast
        if 1 < inner.countP partIsEmpty then none
        else if inner.countP partIsEmpty = 1 then
          let skipIdx := 1 + inner.findIdx partIsEmpty
          let hi0 := skipIdx
          let lo0 := parts.length - skipIdx - 1
          let headEmpty := partIsEmpty (parts.headD (H6Part.valP 0))
          let lastEmpty := partIsEmpty (parts.getLastD (H6Part.valP 0))
          if headEmpty ∧ hi0 - 1 ≠ 0 then none
          else if lastEmpty ∧ lo0 - 1 ≠ 0 then none
          else
            let hi := if headEmpty then hi0 - 1 else hi0
            let lo := if lastEmpty then lo0 - 1 else lo0
            if 8 ≤ hi + lo then none
            else
              match foldHextets 0 (parts.take hi) with
              | none => none
              | some hv =>
                foldHextets (hv * 65536 ^ (8 - (hi + lo)))
                  (parts.drop (parts.length - lo))
        else
          if parts.length ≠ 8 then none
          else if partIsEmpty (parts.headD (H6Part.valP 0)) then none
          else if partIsEmpty (parts.getLastD (H6Part.valP 0)) then none
          else foldHextets 0 parts

/-- Parse a host as an IPv6 literal, handling a `%scope` suffix the way
`IPv6Address._split_scope_id` does: the part after the first `%` must be
non-empty and must not itself contain `%`. -/
def parseIPv6 (host : Str) : Option Nat :=
  match splitAtFirst '%' host with
  | none => parseIPv6Core host
  | some (addr, scope) =>
    if scope.isEmpty then none
    else if scope.contains '%' then none
    else parseIPv6Core addr

/-- An address returned by `ipaddress.ip_address`: IPv4 as four octets or
IPv6 as its 128-bit integer. -/
inductive IPAddr
  | v4 (q : IP4)
  | v6 (n : Nat)
deriving DecidableEq, Repr

/-- Embeds `ipaddress.ip_address` on a string host: try IPv4, then IPv6;
`none` models the `ValueError` for non-address hostnames. -/
def parseIP (host : Str) : Option IPAddr :=
  match parseIPv4 host with
  | some q => some (.v4 q)
  | none =>
    match parseIPv6 host with
    | some n => some (.v6 n)
    | none => none

/-- Python `IPv6Address.is_private`: membership in the standard list of
private networks of the `ipaddress` module (`::1/128`, `::/128`,
`::ffff:0:0/96`, `100::/64`, `2001::/23`, `2001:2::/48`, `2001:db8::/32`,
`2001:10::/28`, `fc00::/7`, `fe80::/10`), as prefix checks on the 128-bit
value. -/
def isPrivateV6 (n : Nat) : Bool :=
  n == 1 || n == 0
    || n / 2 ^ 32 == 0xffff
    || n / 2 ^ 64 == 0x100 * 2 ^ 48
    || n / 2 ^ 105 == 0x2001 * 2 ^ 7
    || n / 2 ^ 80 == 0x2001 * 2 ^ 32 + 0x2 * 2 ^ 16
    || n / 2 ^ 96 == 0x2001 * 2 ^ 16 + 0xdb8
    || n / 2 ^ 100 == 0x2001 * 2 ^ 12 + 0x1
    || n / 2 ^ 121 == 0x7e
    || n / 2 ^ 118 == 0x3fa

/-- Python `is_private` on either address version. -/
def isPrivateAddr : IPAddr → Bool
  | .v4 q => isPrivateIP q
  | .v6 n => isPrivateV6 n

/-- The CN-network loop of `judge` (rule.py lines 160-162): `address in
network` over `IPv4Network`s, which is always `False` for an IPv6 address
(version mismatch) and is abstracted by `inCN` for IPv4. -/
def inCNAddr (inCN : IP4 → Bool) : IPAddr → Bool
  | .v4 q => inCN q
  | .v6 _ => false

/-- Embeds module-level `add` (rule.py lines 176-178): insert the host into
the learned set `cache`. -/
def ruleAdd (st : List Str) (host : Str) : List Str :=
  if host ∈ st then st else host :: st

/-- Embeds module-level `judge` (rule.py lines 152-173): an IP-literal
host (IPv4 or IPv6) that is private, or contained in a CN network, is
Direct before anything else; then the learned set `cache` (threaded as
`st`), then the `FilterRule`, whose `some true` result is memoized.
`inCN` abstracts membership in the CN `IPv4Network` list loaded from
`cn-ip.txt` (a data file not under src/). -/
def ruleJudge (cfg : RuleConfig) (inCN : IP4 → Bool) (st : List Str) (host : Str) :
    Except PyErr (Option Bool × List Str) :=
  let cont : Except PyErr (Option Bool × List Str) :=
    if host ∈ st then .ok (some true, st)
    else
      match filterJudge cfg host with
      | .error e => .error e
      | .ok r => if r = some true then .ok (some true, ruleAdd st host) else .ok (r, st)
  match parseIP host with
  | some a =>
    if isPrivateAddr a then .ok (some false, st)
    else if inCNAddr inCN a then .ok (some false, st)
    else cont
  | none => cont

/-- One pooled WebSocket connection: an identity and the liveness flag the
source reads through `sock.closed`. -/
structure WS where
  id : Nat
  closed : Bool
deriving DecidableEq, Repr

/-- First phase of a maintenance tick (client.py lines 59-62): remove every
closed connection from the free pool. -/
def removeDead (pool : List WS) : List WS :=
  pool.filter (fun s => !s.closed)

/-- Second phase of a maintenance tick (client.py lines 64-66): while the
pool holds more than `cap = 2 * init_size` connections, pop one and close
it. -/
def trimPool (cap : Nat) : List WS → List WS
  | [] => []
  | s :: rest => if (s :: rest).length > cap then trimPool cap rest else s :: rest

/-- Third phase of a maintenance tick (client.py lines 68-69): while the
pool holds fewer than `init_size` connections, await `_create`.  Each entry
of `creates` is one `_create` outcome: `some s` adds a connection, `none`
is a logged connect failure that adds nothing (client.py lines 98-110).
The result is `none` when the outcome script is exhausted while the pool is
still below target, i.e. the tick has not completed. -/
def growPool (n : Nat) : List (Option WS) → List WS → Option (List WS)
  | [], pool => if pool.length < n then none else some pool
  | none :: rest, pool =>
    if pool.length < n then growPool n rest pool else some pool
  | some s :: rest, pool =>
    if pool.length < n then growPool n rest (s :: pool) else some pool

/-- One complete maintenance tick of `Pool.clear_pool` (client.py lines
52-69): remove dead, trim to `2 * n`, grow to `n`. -/
def clearPoolTick (n : Nat) (creates : List (Option WS)) (pool : List WS) :
    Option (List WS) :=
  growPool n creates (trimPool (2 * n) (removeDead pool))

/-- Pop loop of `Pool.acquire` (client.py lines 75-83): pop connections,
closing and discarding dead ones, until a live one is found or the pool is
empty. -/
def popLive : List WS → Option (WS × List WS)
  | [] => none
  | s :: rest => if s.closed then popLive rest else some (s, rest)

/-- Create-retry loop of `Pool.acquire` (client.py lines 84-85): on
`KeyError` (empty pool) the caller awaits `_create` and retries the pop;
the freshly created connection (if any) is the only element to pop, and a
dead one is discarded exactly as in the pop loop. -/
def acquireCreate : List (Option WS) → Option (WS × List WS)
  | [] => none
  | some s :: cs => if s.closed then acquireCreate cs else some (s, [])
  | none :: cs => acquireCreate cs

/-- Embeds `Pool.acquire` (client.py lines 71-85): drain the current pool
first, then fall back to synchronous creation.  Returns the connection
handed out and the remaining free pool, or `none` when the create script is
exhausted without producing a live connection. -/
def acquire (pool : List WS) (creates : List (Option WS)) : Option (WS × List WS) :=
  match popLive pool with
  | some r => some r
  | none => acquireCreate creates

/-- Embeds `Pool.release` (client.py lines 87-96): a closed connection is
dropped, a live one rejoins the free pool. -/
def release (pool : List WS) (s : WS) : List WS :=
  if s.closed then pool else s :: pool

/-- The char-list form of the literal "CLOSED" used by the tunnel close
handshake. -/
def closedStr : Str := ("CLOSED".data)

/-- One result of `sock.recv()` on the underlying WebSocket, as the client
code observes it: a text frame (modelled by the two JSON fields the code
reads, `ALLOW` and `STATUS`), a binary frame, or a raised
`ConnectionClosed`. -/
inductive WSEvent
  | text (allow : Option Bool) (status : Option Str)
  | binary (payload : List Nat)
  | connClosed
deriving DecidableEq, Repr

/-- Check whether an event is a binary frame. -/
def isBinEv : WSEvent → Bool
  | .binary _ => true
  | _ => false

/-- Messages the client sends on the underlying WebSocket during the
handshake of `WebSocket.create_connection`. -/
inductive Sent
  | openMsg (host : Str) (port : Nat)
  | closeMsg
deriving DecidableEq, Repr

/-- Outcomes of one handshake attempt.  `wsClosedErr` is
`websockets.exceptions.ConnectionClosedError` (retried by the outer loop),
`implErr` is `WebSocksImplementationError`, `refused` is `WebSocksRefused`
(a `ConnectionRefusedError`), `noEvents` marks an exhausted event script. -/
inductive AttemptErr
  | implErr
  | refused
  | wsClosedErr
  | noEvents
deriving DecidableEq, Repr

/-- The drain loop of the deny path (client.py lines 135-138): keep
receiving until a text frame arrives. -/
def drainUntilText : List WSEvent →
    Except AttemptErr (Option Bool × Option Str × List WSEvent)
  | [] => .error .noEvents
  | .binary _ :: rest => drainUntilText rest
  | .connClosed :: _ => .error .wsClosedErr
  | .text a s :: rest => .ok (a, s, rest)

/-- One iteration of the `while True` loop of `WebSocket.create_connection`
(client.py lines 124-145) on one acquired connection whose incoming frames
are `events`: send the OPEN, read the OPEN-ACK; on a non-text reply or a
missing `ALLOW` key raise `WebSocksImplementationError`; on `ALLOW: false`
send the CLOSE, drain until the peer's text frame, check it is a CLOSE and
raise `WebSocksRefused`.  Returns the outcome and the frames sent. -/
def attempt (host : Str) (port : Nat) (events : List WSEvent) :
    Except AttemptErr Unit × List Sent :=
  match events with
  | [] => (.error .noEvents, [.openMsg host port])
  | .connClosed :: _ => (.error .wsClosedErr, [.openMsg host port])
  | .binary _ :: _ => (.error .implErr, [.openMsg host port])
  | .text allow _ :: rest =>
    match allow with
    | none => (.error .implErr, [.openMsg host port])
    | some true => (.ok (), [.openMsg host port])
    | some false =>
      match drainUntilText rest with
      | .error e => (.error e, [.openMsg host port, .closeMsg])
      | .ok (_, s, _) =>
        if s = some closedStr then (.error .refused, [.openMsg host port, .closeMsg])
        else (.error .implErr, [.openMsg host port, .closeMsg])

/-- Embeds `WebSocket.create_connection` (client.py lines 120-149) over a
pool of connections, each given by its incoming frame script.  Only a
`ConnectionClosedError` is caught and retried with the next acquired
connection; every other outcome (success, `WebSocksRefused`,
`WebSocksImplementationError`) ends the loop with the remaining pool as the
free pool — `Pool.release` is never called on this path. -/
def createConnection (host : Str) (port : Nat) :
    List (List WSEvent) → Except AttemptErr Unit × List (List WSEvent) × List Sent
  | [] => (.error .noEvents, [], [])
  | sc :: rest =>
    match attempt host port sc with
    | (.error .wsClosedErr, sent) =>
      let r := createConnection host port rest
      (r.1, r.2.1, sent ++ r.2.2)
    | (r, sent) => (r, rest, sent)

/-- State of the client-side tunnel wrapper `WebSocket` (client.py lines
113-193): the `status` flag (1 = open, 0 = finished), the underlying
socket's closed flag, and the frames still to be received. -/
structure CWS where
  status : Nat
  sockClosed : Bool
  events : List WSEvent
deriving DecidableEq, Repr

/-- Result of one `WebSocket.recv` call: returned bytes or a raised
`WebSocksImplementationError`. -/
inductive RecvOut
  | bytes (payload : List Nat)
  | raiseImpl
deriving DecidableEq, Repr

/-- Embeds `WebSocket.recv` (client.py lines 151-166).  With `status = 0`
it returns the empty byte string at once, touching nothing.  Otherwise it
reads one frame: a raised `ConnectionClosed` (also modelling an exhausted
script) sets `status := 0` and returns empty; a text frame that is a CLOSE
sets `status := 0` and returns empty; any other text frame raises
`WebSocksImplementationError`; a binary frame yields its payload. -/
def wsRecv (w : CWS) : RecvOut × CWS :=
  if w.status = 0 then (.bytes [], w)
  else
    match w.events with
    | [] => (.bytes [], { w with status := 0, sockClosed := true })
    | .connClosed :: rest =>
      (.bytes [], { w with status := 0, sockClosed := true, events := rest })
    | .binary d :: rest => (.bytes d, { w with events := rest })
    | .text _ s :: rest =>
      if s = some closedStr then (.bytes [], { w with status := 0, events := rest })
      else (.raiseImpl, { w with events := rest })

/-- Embeds the `WebSocket.closed` property (client.py lines 191-193):
`status == 0 or sock.closed`. -/
def wsClosedFlag (w : CWS) : Bool :=
  w.status == 0 || w.sockClosed

/-- The five proxy policies accepted by `Client` (client.py line 203). -/
inductive Policy
  | AUTO
  | PROXY
  | DIRECT
  | BLACK
  | WHITE
deriving DecidableEq, Repr

/-- Outcome of a direct TCP dial: `ok reset` is a completed connection
(with `reset = true` when it is found closed right after connecting,
client.py lines 497-499); `fail` is an `OSError` or the 2.3 s
`asyncio.TimeoutError`, which the code handles identically. -/
inductive DialResult
  | ok (reset : Bool)
  | fail
deriving DecidableEq, Repr

/-- The external world one `connect_remote` call observes: the DNS A and
AAAA answers for the host, the direct-dial outcome, and whether the tunnel
handshake succeeds. -/
structure DialEnv where
  dnsA : Option Str
  dnsAAAA : Option Str
  direct : DialResult
  tunnelOk : Bool
deriving DecidableEq, Repr

/-- The remote endpoint `connect_remote` returns: a direct TCP socket to a
resolved address, or a tunnel `WebSocket` carrying the original host. -/
inductive Remote
  | tcp (ip : Str) (port : Nat)
  | ws (host : Str) (port : Nat)
deriving DecidableEq, Repr

/-- Observable I/O actions of one `connect_remote` call, in order. -/
inductive IOAct
  | queryA
  | queryAAAA
  | directDial (ip : Str)
  | tunnelOpen
deriving DecidableEq, Repr

/-- Errors a `connect_remote` call can raise.  `unboundLocal` is Python's
`UnboundLocalError` for reading the local variable `ip` on a path that
never assigned it; `dialFailed` is a propagated dial `OSError`;
`tunnelRefused` stands for a failed tunnel handshake; `pyExc` propagates a
rule-engine exception. -/
inductive CErr
  | unboundLocal
  | dialFailed
  | tunnelRefused
  | pyExc (e : PyErr)
deriving DecidableEq, Repr

/-- Final dispatch of `connect_remote` (client.py lines 490-504) on the
computed `need_proxy` value: `some true` opens a tunnel; `none` races a
direct dial against the 2.3 s timeout and falls back to the tunnel on any
failure or immediate reset; `some false` dials directly with no timeout
and no fallback.  Both dial branches read the local `ip`, which is `none`
(never assigned) when the policy branch at line 469 was skipped. -/
def connectFinish (env : DialEnv) (host : Str) (port : Nat) (np : Option Bool)
    (ip : Option Str) (st : List Str) (tr : List IOAct) :
    Except CErr Remote × List Str × List IOAct :=
  match np with
  | some true =>
    if env.tunnelOk then (.ok (.ws host port), st, tr ++ [.tunnelOpen])
    else (.error .tunnelRefused, st, tr ++ [.tunnelOpen])
  | none =>
    match ip with
    | none => (.error .unboundLocal, st, tr)
    | some i =>
      match env.direct with
      | .ok false => (.ok (.tcp i port), st, tr ++ [.directDial i])
      | _ =>
        if env.tunnelOk then
          (.ok (.ws host port), st, tr ++ [.directDial i, .tunnelOpen])
        else (.error .tunnelRefused, st, tr ++ [.directDial i, .tunnelOpen])
  | some false =>
    match ip with
    | none => (.error .unboundLocal, st, tr)
    | some i =>
      match env.direct with
      | .ok _ => (.ok (.tcp i port), st, tr ++ [.directDial i])
      | .fail => (.error .dialFailed, st, tr ++ [.directDial i])

/-- Embeds `Client.connect_remote` (client.py lines 465-504).  For PROXY
and DIRECT policies `need_proxy` is fixed and the policy branch that
assigns `ip` is skipped.  Otherwise: an IP-literal host (IPv4 or IPv6) is
direct when private and otherwise judged by the rule engine, with
`ip = host` and no DNS query; a
domain host is resolved (A record, then AAAA, then falling back to the
host itself, in which case `need_proxy = True`) and judged; BLACK and
WHITE then replace an Unknown decision by their bias.  Returns the
outcome, the updated learned set and the trace of I/O actions. -/
def connectRemote (policy : Policy) (cfg : RuleConfig) (inCN : IP4 → Bool)
    (env : DialEnv) (st : List Str) (host : Str) (port : Nat) :
    Except CErr Remote × List Str × List IOAct :=
  if policy = .PROXY ∨ policy = .DIRECT then
    connectFinish env host port (some (policy == .PROXY)) none st []
  else
    let bw : Option Bool → Option Bool := fun r =>
      if policy = .BLACK ∨ policy = .WHITE then some (r.getD (policy == .WHITE))
      else r
    match parseIP host with
    | some a =>
      if isPrivateAddr a then
        connectFinish env host port (bw (some false)) (some host) st []
      else
        match ruleJudge cfg inCN st host with
        | .error e => (.error (.pyExc e), st, [])
        | .ok (r, st1) => connectFinish env host port (bw r) (some host) st1 []
    | none =>
      let ipTr : Str × List IOAct :=
        match env.dnsA with
        | some r => (r, [IOAct.queryA])
        | none =>
          match env.dnsAAAA with
          | some r => (r, [IOAct.queryA, IOAct.queryAAAA])
          | none => (host, [IOAct.queryA, IOAct.queryAAAA])
      if ipTr.1 = host then
        connectFinish env host port (bw (some true)) (some ipTr.1) st ipTr.2
      else
        match ruleJudge cfg inCN st host with
        | .error e => (.error (.pyExc e), st, ipTr.2)
        | .ok (r, st1) => connectFinish env host port (bw r) (some ipTr.1) st1 ipTr.2

/-- Big-endian byte-list value, as `int.from_bytes(-, "big")`. -/
def fromBytesBE (l : List Nat) : Nat :=
  l.foldl (fun acc b => acc * 256 + b) 0

/-- Dotted rendering of a byte list, as `".".join(str(i) for i in bs)`. -/
def quadStr (bs : List Nat) : Str :=
  ((bs.map (fun n => Nat.toDigits 10 n)).intersperse ['.']).flatten

/-- Outcome of parsing one SOCKS4/4A request.  `idxError` models an
`IndexError` on a request shorter than the fixed header, `unsupported` the
`\x00\x91` reply for a non-CONNECT command, `unpackError` the `ValueError`
from unpacking the USERID/host split, `literal` a plain SOCKS4 destination
and `hostname` a SOCKS4A destination read from the trailer. -/
inductive S4
  | idxError
  | unsupported
  | unpackError
  | literal (host : Str) (port : Nat)
  | hostname (userid : List Nat) (host : List Nat) (port : Nat)
deriving DecidableEq, Repr

/-- Embeds the request parsing of `Client.socks4` (client.py lines
361-373) on the first received chunk `data`: reject non-CONNECT, read the
big-endian port from bytes 2-3 and the dotted-quad host from bytes 4-7,
then detect SOCKS4A by `sum(data[4:8]) == data[7]`.  On the 4A path the
`while data.count(0) < 2` refill loop never runs, because the detection
already forces bytes 4-6 to be zero, so `data` holds at least three zero
bytes; `data[8:-1]` must then split on a zero byte into exactly a USERID
and a hostname.  `unpackTrailer` is that final split-and-unpack step
(client.py line 372). -/
def unpackTrailer (middle : List Nat) (port : Nat) : S4 :=
  match middle.splitOn 0 with
  | [u, h] => .hostname u h port
  | _ => .unpackError

/-- Request parsing of `Client.socks4` as documented above, with the
trailer handled by `unpackTrailer`. -/
def socks4parse (data : List Nat) : S4 :=
  if data.length < 2 then .idxError
  else if data.getD 1 0 ≠ 1 then .unsupported
  else
    let port := fromBytesBE ((data.drop 2).take 2)
    let ipBytes := (data.drop 4).take 4
    if data.length < 8 then .idxError
    else if ipBytes.sum = data.getD 7 0 then
      unpackTrailer ((data.drop 8).take (data.length - 9)) port
    else .literal (quadStr ipBytes) port

/-- Check whether a SOCKS4 parse took the SOCKS4A hostname path (the
trailer unpack, successful or not). -/
def is4A : S4 → Bool
  | .hostname _ _ _ => true
  | .unpackError => true
  | _ => false

/-- Rule sources for the claim-6 scenario of section 8 of the spec: a GFW
list holding the domain anchor for example.com and the exception for
foo.example.com, nothing else. -/
def c1cfg : RuleConfig :=
  ⟨[], [("||example.com".data), ("@@||foo.example.com".data)], [], fun _ => false⟩

/-- Rule sources with no list content at all (empty files, regexes that
match nothing). -/
def c3cfg : RuleConfig := ⟨[], [], [], fun _ => false⟩

/-- Dial environment for the auto-fallback scenario: the A query resolves,
the direct dial fails, the tunnel succeeds. -/
def c3env : DialEnv := ⟨some ("9.9.9.9".data), none, .fail, true⟩

/-- Rule sources where the whitelist and a user file disagree about the
host "example": the whitelist holds the exception rule for the prefix
"ex", the user file holds the plain prefix rule "ex". -/
def c4cfg : RuleConfig := ⟨[("@@ex".data)], [], [[("ex".data)]], fun _ => false⟩

/-- Rule sources with no list content, for the learned-set claim. -/
def c8cfg : RuleConfig := ⟨[], [], [], fun _ => false⟩

/-! ## Helper lemmas -/

/-- The pop loop of `Pool.acquire` only ever surfaces a live connection. -/
theorem popLive_not_closed (pool : List WS) (s : WS) (rest : List WS)
    (h : popLive pool = some (s, rest)) : s.closed = false := by
  induction pool with
  | nil => simp [popLive] at h
  | cons t ts ih =>
    by_cases hc : t.closed
    · exact ih (by simpa [popLive, hc] using h)
    · simp [popLive, hc] at h
      rw [← h.1]
      simpa using hc

/-- The create-retry loop of `Pool.acquire` only ever surfaces a live
connection. -/
theorem acquireCreate_not_closed (creates : List (Option WS)) (s : WS)
    (rest : List WS) (h : acquireCreate creates = some (s, rest)) :
    s.closed = false := by
  induction creates with
  | nil => simp [acquireCreate] at h
  | cons o os ih =>
    match o with
    | none => exact ih (by simpa [acquireCreate] using h)
    | some t =>
      by_cases hc : t.closed
      · exact ih (by simpa [acquireCreate, hc] using h)
      · simp [acquireCreate, hc] at h
        rw [← h.1]
        simpa using hc

/-- The trim loop leaves at most `cap` connections. -/
theorem trimPool_length_le (cap : Nat) (pool : List WS) :
    (trimPool cap pool).length ≤ cap := by
  induction pool with
  | nil => simp [trimPool]
  | cons s rest ih =>
    rw [trimPool]
    split
    · exact ih
    · next hc => exact Nat.le_of_not_lt hc

/-- The grow loop, when it completes, leaves at most
`max (initial length) n` connections. -/
theorem growPool_length_le (n : Nat) (creates : List (Option WS)) :
    ∀ pool p, growPool n creates pool = some p →
      p.length ≤ max pool.length n := by
  induction creates with
  | nil =>
    intro pool p h
    by_cases hc : pool.length < n
    · simp [growPool, hc] at h
    · simp [growPool, hc] at h
      simp [← h]
  | cons o os ih =>
    intro pool p h
    match o with
    | some s =>
      by_cases hc : pool.length < n
      · have hb := ih (s :: pool) p (by simpa [growPool, hc] using h)
        simp at hb
        rcases hb with hb | hb <;> omega
      · simp [growPool, hc] at h
        simp [← h]
    | none =>
      by_cases hc : pool.length < n
      · have hb := ih pool p (by simpa [growPool, hc] using h)
        simp at hb
        rcases hb with hb | hb <;> omega
      · simp [growPool, hc] at h
        simp [← h]

/-- If the drain loop starts on binary frames followed by a text frame, it
skips the binary frames and returns the text frame's fields. -/
theorem drainUntilText_binary (mid : List WSEvent) (a : Option Bool)
    (s : Option Str) (tail : List WSEvent) (h : ∀ e ∈ mid, isBinEv e = true) :
    drainUntilText (mid ++ WSEvent.text a s :: tail) = .ok (a, s, tail) := by
  induction mid with
  | nil => simp [drainUntilText]
  | cons e es ih =>
    match e with
    | .text _ _ =>
      have := h _ (List.mem_cons_self _ _)
      simp [isBinEv] at this
    | .connClosed =>
      have := h _ (List.mem_cons_self _ _)
      simp [isBinEv] at this
    | .binary _ =>
      simpa [drainUntilText] using ih (fun x hx => h x (List.mem_cons_of_mem _ hx))

/-- A host judged Unknown by the module-level `judge` was not in the
learned set, and the learned set is unchanged. -/
theorem ruleJudge_ok_none (cfg : RuleConfig) (inCN : IP4 → Bool)
    (st : List Str) (host : Str) (st1 : List Str)
    (h : ruleJudge cfg inCN st host = .ok (none, st1)) :
    host ∉ st ∧ st1 = st := by
  by_cases hm : host ∈ st
  · exfalso
    unfold ruleJudge at h
    rcases hp : parseIP host with _ | a <;> rw [hp] at h <;> simp [hm] at h
    by_cases hpr : isPrivateAddr a
    · simp [hpr] at h
    · by_cases hcn : inCNAddr inCN a <;> simp [hpr, hcn, hm] at h
  · refine ⟨hm, ?_⟩
    unfold ruleJudge at h
    have hcont : ∀ (hcase : Except PyErr (Option Bool × List Str)),
        hcase = (if host ∈ st then .ok (some true, st)
          else match filterJudge cfg host with
            | .error e => .error e
            | .ok r => if r = some true then .ok (some true, ruleAdd st host)
                       else .ok (r, st)) → hcase = .ok (none, st1) → st1 = st := by
      intro hcase hdef hval
      subst hdef
      simp [hm] at hval
      rcases hf : filterJudge cfg host with e | r <;> rw [hf] at hval
      · simp at hval
      · by_cases hr : r = some true <;> simp [hr] at hval
        exact hval.2.symm
    rcases hp : parseIP host with _ | a <;> rw [hp] at h
    · exact hcont _ rfl h
    · by_cases hpr : isPrivateAddr a
      · simp [hpr] at h
      · by_cases hcn : inCNAddr inCN a
        · simp [hpr, hcn] at h
        · exact hcont _ rfl (by simpa [hpr, hcn] using h)

/-- Inserting a host puts it in the learned set. -/
theorem mem_ruleAdd (st : List Str) (host : Str) : host ∈ ruleAdd st host := by
  unfold ruleAdd
  by_cases hm : host ∈ st <;> simp [hm]

/-! ## Claim theorems -/

/-- C1, counterexample.  With rule files holding exactly the claimed lines,
the source's rule matcher judges the host "bar.example.com" as Unknown
(`none`), not Proxy (`some true`) as the claim requires: the `||suf` rule
is a `startswith` test in the source, and "bar.example.com" does not start
with "example.com". -/
theorem c1_counterexample :
    ruleJudge c1cfg (fun _ => false) [] ("bar.example.com".data) = .ok (none, [])
    ∧ filterJudge c1cfg ("bar.example.com".data) = .ok none
    ∧ filterJudge c1cfg ("bar.example.com".data) ≠ .ok (some true) := by
  refine ⟨by decide, by decide, by decide⟩

/-- C1, amended.  A rule line `||suf` matches a host exactly when `suf` is
a prefix of the host (so equality still matches, but dot-suffixes do not);
consequently, for rule files holding `||example.com` then
`@@||foo.example.com`, the judgement of "bar.example.com" is Unknown while
"foo.example.com" is Direct (the exception's inner rule is a prefix of that
host). -/
theorem c1_amended :
    (∀ host suf : Str, judgeLine host ('|' :: '|' :: suf) =
      .ok (if pyStartsWith host suf then some true else none))
    ∧ filterJudge c1cfg ("bar.example.com".data) = .ok none
    ∧ filterJudge c1cfg ("foo.example.com".data) = .ok (some false) := by
  refine ⟨fun host suf => rfl, by decide, by decide⟩

/-- C4, counterexample.  With a whitelist exception `@@ex` and a user file
rule `ex`, the source returns the whitelist's Direct for host "example",
while the claimed lookup order (user override files first) would return the
user file's Proxy. -/
theorem c4_counterexample :
    filterJudge c4cfg ("example".data) = .ok (some false)
    ∧ specFilterJudge c4cfg ("example".data) = .ok (some true)
    ∧ filterJudge c4cfg ("example".data) ≠ specFilterJudge c4cfg ("example".data) := by
  refine ⟨by decide, by decide, by decide⟩

/-- C4, amended.  The rule engine consults its sources in the order:
whitelist first, then the GFW list, then the user override files, then the
built-in black-list regexes, returning the first concrete decision; hence
a whitelist or GFW-list decision overrides a conflicting user-file
decision. -/
theorem c4_amended :
    (∀ cfg host r, judgeFile host cfg.whitelist = .ok (some r) →
      filterJudge cfg host = .ok (some r))
    ∧ (∀ cfg host r, judgeFile host cfg.whitelist = .ok none →
      judgeFile host cfg.gfwlist = .ok (some r) →
      filterJudge cfg host = .ok (some r))
    ∧ (∀ cfg host r, judgeFile host cfg.whitelist = .ok none →
      judgeFile host cfg.gfwlist = .ok none →
      judgeYourself host cfg.yourselfs = .ok (some r) →
      filterJudge cfg host = .ok (some r))
    ∧ (∀ cfg host, judgeFile host cfg.whitelist = .ok none →
      judgeFile host cfg.gfwlist = .ok none →
      judgeYourself host cfg.yourselfs = .ok none →
      filterJudge cfg host = .ok (if cfg.black host then some true else none)) := by
  refine ⟨?_, ?_, ?_, ?_⟩
  · intro cfg host r h
    simp [filterJudge, h]
  · intro cfg host r h1 h2
    simp [filterJudge, h1, h2]
  · intro cfg host r h1 h2 h3
    simp [filterJudge, h1, h2, h3]
  · intro cfg host h1 h2 h3
    simp [filterJudge, h1, h2, h3]

/-- C4, witness for the amended claim: each of the four order facts at a
concrete configuration and host. -/
theorem c4_witness :
    filterJudge ⟨[("a".data)], [], [], fun _ => false⟩ ("ab".data) = .ok (some true)
    ∧ filterJudge ⟨[("zz".data)], [("b".data)], [], fun _ => false⟩ ("bc".data) =
      .ok (some true)
    ∧ filterJudge ⟨[("zz".data)], [("zz".data)], [[("c".data)]], fun _ => false⟩
      ("cd".data) = .ok (some true)
    ∧ filterJudge ⟨[("zz".data)], [("zz".data)], [], fun h => h = ("d".data)⟩
      ("d".data) = .ok (if (fun (h : Str) => h = ("d".data)) ("d".data)
        then some true else none) := by
  refine ⟨?_, ?_, ?_, ?_⟩
  · exact c4_amended.1 _ _ true (by decide)
  · exact c4_amended.2.1 _ _ true (by decide) (by decide)
  · exact c4_amended.2.2.1 _ _ true (by decide) (by decide) (by decide)
  · exact c4_amended.2.2.2 _ _ (by decide) (by decide) (by decide)

/-- C8, counterexample.  After inserting the host "127.0.0.1" into the
learned set, `judge` still returns Direct (`some false`), not Proxy: the
private-address check precedes the learned-set lookup. -/
theorem c8_counterexample :
    ruleJudge c8cfg (fun _ => false) (ruleAdd [] ("127.0.0.1".data))
      ("127.0.0.1".data) = .ok (some false, [("127.0.0.1".data)])
    ∧ ruleJudge c8cfg (fun _ => false) (ruleAdd [] ("127.0.0.1".data))
      ("127.0.0.1".data) ≠ .ok (some true, [("127.0.0.1".data)]) := by
  refine ⟨by decide, by decide⟩

/-- C8, amended.  After a host is inserted into the learned set, every
subsequent `judge` of that host returns Proxy, for every rule
configuration, CN list and prior learned set — except when the host parses
(as `ipaddress.ip_address` does, IPv4 or IPv6) to an address that is
private or on the CN list: then the IP checks return Direct before the
learned set is ever consulted. -/
theorem c8_amended :
    (∀ (cfg : RuleConfig) (inCN : IP4 → Bool) (st : List Str) (host : Str),
      (parseIP host = none
        ∨ ∃ a, parseIP host = some a ∧ isPrivateAddr a = false
            ∧ inCNAddr inCN a = false) →
      ruleJudge cfg inCN (ruleAdd st host) host = .ok (some true, ruleAdd st host))
    ∧ (∀ (cfg : RuleConfig) (inCN : IP4 → Bool) (st : List Str) (host : Str)
      (a : IPAddr), parseIP host = some a → isPrivateAddr a = true →
      ruleJudge cfg inCN (ruleAdd st host) host =
        .ok (some false, ruleAdd st host)) := by
  constructor
  · intro cfg inCN st host h
    have hm := mem_ruleAdd st host
    rcases h with h | ⟨a, ha, hpr, hcn⟩
    · simp [ruleJudge, h, hm]
    · simp [ruleJudge, ha, hpr, hcn, hm]
  · intro cfg inCN st host a ha hpr
    simp [ruleJudge, ha, hpr]

/-- C8, witness: the amended claim at the hostname "example.com" (Proxy
after insertion), and at the private IPv6 literal "::1" (still Direct
after insertion), with empty rule sources and an empty prior learned
set. -/
theorem c8_witness :
    ruleJudge c8cfg (fun _ => false) (ruleAdd [] ("example.com".data))
      ("example.com".data) = .ok (some true, ruleAdd [] ("example.com".data))
    ∧ ruleJudge c8cfg (fun _ => false) (ruleAdd [] ("::1".data))
      ("::1".data) = .ok (some false, ruleAdd [] ("::1".data)) :=
  ⟨c8_amended.1 c8cfg (fun _ => false) [] ("example.com".data) (Or.inl (by decide)),
   c8_amended.2 c8cfg (fun _ => false) [] ("::1".data) (.v6 1) (by decide) (by decide)⟩

/-- C5, confirmed.  Whenever a maintenance tick of `Pool.clear_pool`
completes — for any target size, any free pool and any script of `_create`
outcomes — the resulting free pool holds at most `2 * init_size`
connections: dead ones are removed first, the trim loop caps the pool at
`2 * init_size`, and the grow loop stops below `init_size`. -/
theorem c5_tick_bound (n : Nat) (creates : List (Option WS)) (pool : List WS)
    (p : List WS) (h : clearPoolTick n creates pool = some p) :
    p.length ≤ 2 * n := by
  have hg := growPool_length_le n creates _ p h
  have ht := trimPool_length_le (2 * n) (removeDead pool)
  have hn : n ≤ 2 * n := by omega
  simp at hg
  rcases hg with hg | hg <;> omega

/-- C5, witness: a tick over eight live connections with target size 3
completes and trims the pool to six. -/
theorem c5_witness :
    clearPoolTick 3 [] [⟨0, false⟩, ⟨1, false⟩, ⟨2, false⟩, ⟨3, false⟩,
      ⟨4, false⟩, ⟨5, false⟩, ⟨6, false⟩, ⟨7, false⟩] =
      some [⟨2, false⟩, ⟨3, false⟩, ⟨4, false⟩, ⟨5, false⟩, ⟨6, false⟩, ⟨7, false⟩]
    ∧ ([⟨2, false⟩, ⟨3, false⟩, ⟨4, false⟩, ⟨5, false⟩, ⟨6, false⟩,
      ⟨7, false⟩] : List WS).length ≤ 2 * 3 := by
  refine ⟨by decide, ?_⟩
  exact c5_tick_bound 3 [] [⟨0, false⟩, ⟨1, false⟩, ⟨2, false⟩, ⟨3, false⟩,
    ⟨4, false⟩, ⟨5, false⟩, ⟨6, false⟩, ⟨7, false⟩] _ (by decide)

/-- C6, confirmed.  `Pool.acquire` never returns a dead connection: any
returned connection has `closed = false`; a popped dead connection is
discarded and the loop retries on the remaining pool; and with an empty
pool the loop falls through to synchronous `_create` calls. -/
theorem c6_acquire_live :
    (∀ pool creates s rest, acquire pool creates = some (s, rest) →
      s.closed = false)
    ∧ (∀ (s : WS) rest creates, s.closed = true →
      acquire (s :: rest) creates = acquire rest creates)
    ∧ (∀ creates, acquire [] creates = acquireCreate creates) := by
  refine ⟨?_, ?_, ?_⟩
  · intro pool creates s rest h
    unfold acquire at h
    rcases hp : popLive pool with _ | r <;> rw [hp] at h
    · exact acquireCreate_not_closed creates s rest h
    · obtain rfl : r = (s, rest) := by simpa using h
      exact popLive_not_closed pool s rest hp
  · intro s rest creates h
    simp [acquire, popLive, h]
  · intro creates
    rfl

/-- C6, witness: acquiring from a pool whose first connection is dead skips
it and returns the live second one. -/
theorem c6_witness :
    (WS.mk 1 false).closed = false
    ∧ acquire [⟨0, true⟩, ⟨1, false⟩] [] = acquire [⟨1, false⟩] [] := by
  refine ⟨?_, ?_⟩
  · exact c6_acquire_live.1 [⟨0, true⟩, ⟨1, false⟩] [] ⟨1, false⟩ [] (by decide)
  · exact c6_acquire_live.2.1 ⟨0, true⟩ [⟨1, false⟩] [] rfl

/-- C10, confirmed.  The tunnel wrapper's EOF is sticky: once `status = 0`
(set when `recv` observes a peer CLOSE text frame or a closed underlying
WebSocket), every further `recv` returns the empty byte string immediately
with the state — in particular the pending frame queue — unchanged, and
the `closed` property reports true; and `recv` does set `status := 0` in
both of those situations. -/
theorem c10_recv_sticky :
    (∀ w : CWS, w.status = 0 → wsRecv w = (.bytes [], w) ∧ wsClosedFlag w = true)
    ∧ (∀ (w : CWS) a s rest, w.status ≠ 0 →
      w.events = WSEvent.text a s :: rest → s = some closedStr →
      wsRecv w = (.bytes [], { w with status := 0, events := rest }))
    ∧ (∀ (w : CWS) rest, w.status ≠ 0 → w.events = WSEvent.connClosed :: rest →
      wsRecv w =
        (.bytes [], { w with status := 0, sockClosed := true, events := rest })) := by
  refine ⟨?_, ?_, ?_⟩
  · intro w h
    constructor
    · simp [wsRecv, h]
    · simp [wsClosedFlag, h]
  · intro w a s rest h he hs
    simp [wsRecv, h, he, hs]
  · intro w rest h he
    simp [wsRecv, h, he]

/-- C10, witness: a wrapper with `status = 0` and a pending binary frame
returns empty without consuming the frame and reports closed; a live
wrapper receiving the peer CLOSE drops to `status = 0`. -/
theorem c10_witness :
    (wsRecv ⟨0, false, [WSEvent.binary [7]]⟩ =
      (.bytes [], ⟨0, false, [WSEvent.binary [7]]⟩)
      ∧ wsClosedFlag ⟨0, false, [WSEvent.binary [7]]⟩ = true)
    ∧ wsRecv ⟨1, false, [WSEvent.text none (some closedStr)]⟩ =
      (.bytes [], ⟨0, false, []⟩) := by
  refine ⟨c10_recv_sticky.1 ⟨0, false, [WSEvent.binary [7]]⟩ rfl, ?_⟩
  exact c10_recv_sticky.2.1 ⟨1, false, [WSEvent.text none (some closedStr)]⟩
    none (some closedStr) [] (by decide) rfl rfl

/-- C2, counterexample.  A pool holding exactly one connection, whose
server denies the OPEN and then closes the tunnel: `create_connection`
completes the CLOSE exchange and raises `WebSocksRefused`, but the free
pool afterwards is empty — the still-alive WebSocket was not returned to
the pool. -/
theorem c2_counterexample :
    createConnection ("x.com".data) 80
      [[WSEvent.text (some false) none, WSEvent.text none (some closedStr)]] =
      (.error .refused, [], [Sent.openMsg ("x.com".data) 80, Sent.closeMsg])
    ∧ (createConnection ("x.com".data) 80
      [[WSEvent.text (some false) none,
        WSEvent.text none (some closedStr)]]).2.1.length = 0 := by
  refine ⟨by decide, by decide⟩

/-- C2, amended.  For every tunnel OPEN answered with ALLOW false, the
client sends its CLOSE, drains binary frames until the peer's CLOSE text
frame, and fails the request with `WebSocksRefused` (a
`ConnectionRefusedError`, surfaced as 502 / SOCKS failure) — but the
underlying WebSocket is abandoned rather than returned to the pool: the
free pool afterwards is exactly the connections never acquired. -/
theorem c2_amended (host : Str) (port : Nat) (st0 : Option Str)
    (mid : List WSEvent) (a : Option Bool) (tail : List WSEvent)
    (rest : List (List WSEvent)) (h : ∀ e ∈ mid, isBinEv e = true) :
    createConnection host port
      ((WSEvent.text (some false) st0 ::
        (mid ++ WSEvent.text a (some closedStr) :: tail)) :: rest) =
      (.error .refused, rest, [Sent.openMsg host port, Sent.closeMsg]) := by
  have hd := drainUntilText_binary mid a (some closedStr) tail h
  simp [createConnection, attempt, hd]

/-- C2, witness: the amended claim on a one-deep pool followed by an unused
connection, with one binary frame before the peer's CLOSE. -/
theorem c2_witness :
    createConnection (['x'] : Str) 1
      ((WSEvent.text (some false) none ::
        ([WSEvent.binary [0]] ++ WSEvent.text none (some closedStr) :: [])) ::
        [[WSEvent.text (some true) none]]) =
      (.error .refused, [[WSEvent.text (some true) none]],
        [Sent.openMsg ['x'] 1, Sent.closeMsg]) :=
  c2_amended ['x'] 1 none [WSEvent.binary [0]] none []
    [[WSEvent.text (some true) none]] (by decide)

/-- C7, evaluation.  With policy DIRECT, every `connect_remote` call raises
`UnboundLocalError` — the local `ip` is only assigned inside the policy
branch that DIRECT skips — instead of dialing directly; with policy PROXY
the call opens a tunnel and performs no DNS query and no direct dial. -/
theorem c7_policy_modes :
    (∀ cfg inCN env st host port,
      connectRemote .DIRECT cfg inCN env st host port =
        (.error .unboundLocal, st, []))
    ∧ (∀ cfg inCN env st host port,
      connectRemote .PROXY cfg inCN env st host port =
        ((if env.tunnelOk then .ok (.ws host port) else .error .tunnelRefused),
          st, [IOAct.tunnelOpen])) := by
  constructor
  · intro cfg inCN env st host port
    rfl
  · intro cfg inCN env st host port
    rcases env with ⟨dA, dAA, dir, t⟩
    cases t <;> rfl

/-- C3, counterexample.  Policy AUTO, empty rule sources, a host whose rule
decision is Unknown, a failing direct dial and a succeeding tunnel: the
call falls back to the tunnel, but the learned set stays empty — the host
is not inserted — and the subsequent identical request still performs the
direct-dial attempt. -/
theorem c3_counterexample :
    connectRemote .AUTO c3cfg (fun _ => false) c3env [] ("h.test".data) 80 =
      (.ok (.ws ("h.test".data) 80), [],
        [IOAct.queryA, IOAct.directDial ("9.9.9.9".data), IOAct.tunnelOpen])
    ∧ IOAct.directDial ("9.9.9.9".data) ∈
      (connectRemote .AUTO c3cfg (fun _ => false) c3env
        (connectRemote .AUTO c3cfg (fun _ => false) c3env [] ("h.test".data)
          80).2.1 ("h.test".data) 80).2.2 := by
  refine ⟨by decide, by decide⟩

/-- C3, amended.  In AUTO mode, for a domain host — one that is neither an
IPv4 nor an IPv6 literal — with rule decision Unknown whose direct dial
fails, `connect_remote` does retry via the tunnel and returns it on
success — but the host is never inserted into the learned set (the set is
returned unchanged, the host absent), so the subsequent request for the
host repeats the timed direct-dial attempt. -/
theorem c3_amended (cfg : RuleConfig) (inCN : IP4 → Bool) (env : DialEnv)
    (st : List Str) (host : Str) (port : Nat) (ip : Str)
    (hp : parseIP host = none) (hd : env.dnsA = some ip) (hip : ¬ ip = host)
    (hj : ruleJudge cfg inCN st host = .ok (none, st))
    (hdial : env.direct = .fail) (ht : env.tunnelOk = true) :
    connectRemote .AUTO cfg inCN env st host port =
      (.ok (.ws host port), st,
        [IOAct.queryA, IOAct.directDial ip, IOAct.tunnelOpen])
    ∧ host ∉ st := by
  refine ⟨?_, (ruleJudge_ok_none cfg inCN st host st hj).1⟩
  simp [connectRemote, hp, hd, hip, hj, connectFinish, hdial, ht]

/-- C3, witness: the amended claim at the counterexample's concrete
configuration. -/
theorem c3_witness :
    connectRemote .AUTO c3cfg (fun _ => false) c3env [] ("h.test".data) 80 =
      (.ok (.ws ("h.test".data) 80), [],
        [IOAct.queryA, IOAct.directDial ("9.9.9.9".data), IOAct.tunnelOpen])
    ∧ ("h.test".data) ∉ ([] : List Str) :=
  c3_amended c3cfg (fun _ => false) c3env [] ("h.test".data) 80 ("9.9.9.9".data)
    (by decide) rfl (by decide) (by decide) rfl rfl

/-- The trailer unpack of the SOCKS4A path always yields a 4A-classified
result, whether the split has exactly two parts or not. -/
theorem is4A_unpackTrailer (m : List Nat) (p : Nat) :
    is4A (unpackTrailer m p) = true := by
  unfold unpackTrailer
  rcases hm : m.splitOn 0 with _ | ⟨u, _ | ⟨v, _ | ⟨w, ws⟩⟩⟩ <;> rfl

/-- C9, counterexample.  A SOCKS4 CONNECT whose IP bytes are 0.0.0.0 — so
not of the claimed form 0.0.0.x with x ≠ 0 — is nevertheless treated as
SOCKS4A: the destination is read from the trailing hostname, not taken as
the literal address 0.0.0.0. -/
theorem c9_counterexample :
    socks4parse [4, 1, 0, 80, 0, 0, 0, 0, 65, 0, 104, 105, 0] =
      .hostname [65] [104, 105] 80
    ∧ socks4parse [4, 1, 0, 80, 0, 0, 0, 0, 65, 0, 104, 105, 0] ≠
      .literal (quadStr [0, 0, 0, 0]) 80 := by
  refine ⟨by decide, by decide⟩

/-- C9, amended.  For every SOCKS4 CONNECT request (command byte 1, at
least the 8-byte fixed header), the gateway takes the SOCKS4A hostname
path exactly when the first three IP bytes are zero — i.e. for addresses
0.0.0.x including x = 0 — because the source's test
`sum(data[4:8]) == data[7]` reduces to exactly that condition. -/
theorem c9_amended (b0 b1 b2 b3 b4 b5 b6 b7 : Nat) (rest : List Nat)
    (h : b1 = 1) :
    is4A (socks4parse (b0 :: b1 :: b2 :: b3 :: b4 :: b5 :: b6 :: b7 :: rest)) =
      true ↔ (b4 = 0 ∧ b5 = 0 ∧ b6 = 0) := by
  subst h
  unfold socks4parse
  rw [if_neg (by simp), if_neg (by simp)]
  simp only [List.drop, List.take, List.getD_cons_succ, List.getD_cons_zero]
  by_cases hz : b4 + b5 + b6 = 0
  · rw [if_neg (by simp [List.length_cons]), if_pos (by simp; omega)]
    simp [is4A_unpackTrailer]
    omega
  · rw [if_neg (by simp [List.length_cons]), if_neg (by simp; omega)]
    simp [is4A]
    omega

/-- C9, witness: a 0.0.0.5 request (x ≠ 0) with empty USERID and a
one-byte hostname takes the 4A path, via the amended equivalence. -/
theorem c9_witness :
    is4A (socks4parse [4, 1, 0, 80, 0, 0, 0, 5, 0, 104, 0]) = true :=
  (c9_amended 4 1 0 80 0 0 0 5 [0, 104, 0] rfl).mpr ⟨rfl, rfl, rfl⟩
